import Mathlib

/-!
Shallow embedding of the `taxcalcindia` package (files
`taxcalcindia/models.py` and `taxcalcindia/calculator.py`).

Monetary amounts and Python floats are modelled as rationals (ℚ); the
decimal literals below (0.5, 0.1, 0.2, 0.125, 0.25) are exact in ℚ.
Python's `round` (banker's rounding) is modelled by `round_half_even`.
The breakdown dict produced by `__calculate_tax_per_slab` is modelled as
an association list in iteration order; for the valid slab tables the
keys are pairwise distinct, so the list carries the same information as
the Python dict.
-/

namespace TaxCalcIndia

/-- Employment type of the taxpayer (`models.EmploymentType`). -/
inductive EmploymentType
  | PRIVATE
  | GOVERNMENT
  | SELF_EMPLOYED
  deriving DecidableEq

/-- Tax settings (`models.TaxSettings`).  The Python class stores `age`,
`financial_year`, `is_metro_resident` and `employment_type`. -/
structure TaxSettings where
  age : ℕ
  financial_year : ℕ
  is_metro_resident : Bool
  employment_type : EmploymentType
  /-- Modelled from the spec: "Standard deduction = fixed year-dependent
  constant" obtained from the settings.  `calculator.get_taxable_income`
  reads `self.settings.standard_deduction`, but the `TaxSettings` class
  shown under `src/` never assigns this attribute; the field models the
  year's constant carried by the settings object. -/
  standard_deduction : ℚ

/-- Construction-time validation of `TaxSettings.__init__`: age must be in
18..100 and financial_year in 2025..2050, else a `TaxCalculationException`
is raised. -/
def TaxSettings.valid (s : TaxSettings) : Prop :=
  18 ≤ s.age ∧ s.age ≤ 100 ∧ 2025 ≤ s.financial_year ∧ s.financial_year ≤ 2050

/-- Salary income (`models.SalaryIncome`). -/
structure SalaryIncome where
  basic_and_da : ℚ := 0
  hra : ℚ := 0
  other_allowances : ℚ := 0
  bonus_and_commissions : ℚ := 0

/-- Total salary income (`SalaryIncome.total`). -/
def SalaryIncome.total (s : SalaryIncome) : ℚ :=
  s.basic_and_da + s.hra + s.other_allowances + s.bonus_and_commissions

/-- Business income (`models.BusinessIncome`). -/
structure BusinessIncome where
  business_income : ℚ := 0
  property_income : ℚ := 0

/-- Total business income (`BusinessIncome.total`). -/
def BusinessIncome.total (b : BusinessIncome) : ℚ :=
  b.business_income + b.property_income

/-- Capital gains income (`models.CapitalGainsIncome`). -/
structure CapitalGainsIncome where
  short_term_at_normal : ℚ := 0
  short_term_at_20_percent : ℚ := 0
  long_term_at_12_5_percent : ℚ := 0
  long_term_at_20_percent : ℚ := 0

/-- Total capital gains income (`CapitalGainsIncome.total`). -/
def CapitalGainsIncome.total (g : CapitalGainsIncome) : ℚ :=
  g.short_term_at_normal + g.short_term_at_20_percent
    + g.long_term_at_12_5_percent + g.long_term_at_20_percent

/-- Flat-rate capital gains tax (`CapitalGainsIncome.total_capital_gains_tax`). -/
def CapitalGainsIncome.total_capital_gains_tax (g : CapitalGainsIncome) : ℚ :=
  g.short_term_at_20_percent * 0.2
    + g.long_term_at_12_5_percent * 0.125
    + g.long_term_at_20_percent * 0.2

/-- Other income (`models.OtherIncome`). -/
structure OtherIncome where
  savings_account_interest : ℚ := 0
  fixed_deposit_interest : ℚ := 0
  other_sources : ℚ := 0

/-- Total other income (`OtherIncome.total`). -/
def OtherIncome.total (o : OtherIncome) : ℚ :=
  o.savings_account_interest + o.fixed_deposit_interest + o.other_sources

/-- Deduction details (`models.Deductions`): the fields as stored on the
object after `__init__` ran (capping already applied).  `_section_80tta`
and `_section_80ttb` are the private attributes behind the validated
properties. -/
structure Deductions where
  section_80c : ℚ := 0
  section_80d : ℚ := 0
  section_80gg : ℚ := 0
  section_80dd : ℚ := 0
  section_80ddb : ℚ := 0
  section_24b : ℚ := 0
  section_80ccd_1b : ℚ := 0
  section_80ccd_2 : ℚ := 0
  section_80eea : ℚ := 0
  section_80u : ℚ := 0
  section_80eeb : ℚ := 0
  section_80e : ℚ := 0
  section_80g_50percent : ℚ := 0
  section_80g_100percent : ℚ := 0
  section_80gga : ℚ := 0
  section_80ggc : ℚ := 0
  _section_80tta : ℚ := 0
  _section_80ttb : ℚ := 0
  rent_for_hra_exemption : ℚ := 0
  professional_tax : ℚ := 0
  food_coupons : ℚ := 0
  other_exemption : ℚ := 0

/-- Constructor `Deductions.__init__`: capped fields store `min(input, cap)`,
uncapped fields pass through, `_section_80tta`/`_section_80ttb` are set
to 0 (they are not constructor parameters). -/
def Deductions.init
    (section_80c : ℚ := 0) (section_80d : ℚ := 0) (section_80gg : ℚ := 0)
    (section_80dd : ℚ := 0) (section_80ddb : ℚ := 0) (section_24b : ℚ := 0)
    (section_80ccd_1b : ℚ := 0) (section_80ccd_2 : ℚ := 0)
    (section_80eea : ℚ := 0) (section_80u : ℚ := 0) (section_80eeb : ℚ := 0)
    (section_80e : ℚ := 0) (section_80g_50percent : ℚ := 0)
    (section_80g_100percent : ℚ := 0) (section_80gga : ℚ := 0)
    (section_80ggc : ℚ := 0) (rent_for_hra_exemption : ℚ := 0)
    (professional_tax : ℚ := 0) (food_coupons : ℚ := 0)
    (other_exemption : ℚ := 0) : Deductions :=
  { section_80c := min section_80c 150000
    section_80d := min section_80d 100000
    section_80gg := section_80gg
    section_80dd := min section_80dd 1250000
    section_80ddb := min section_80ddb 100000
    section_24b := min section_24b 200000
    section_80ccd_1b := min section_80ccd_1b 50000
    section_80ccd_2 := min section_80ccd_2 168001
    section_80eea := min section_80eea 150000
    section_80u := min section_80u 125000
    section_80eeb := min section_80eeb 150000
    section_80e := section_80e
    section_80g_50percent := section_80g_50percent
    section_80g_100percent := section_80g_100percent
    section_80gga := section_80gga
    section_80ggc := section_80ggc
    _section_80tta := 0
    _section_80ttb := 0
    rent_for_hra_exemption := rent_for_hra_exemption
    professional_tax := min professional_tax 2500
    food_coupons := min food_coupons 26000
    other_exemption := other_exemption }

/-- Property getter `Deductions.section_80tta`. -/
def Deductions.section_80tta (d : Deductions) : ℚ :=
  d._section_80tta

/-- Property getter `Deductions.section_80ttb`. -/
def Deductions.section_80ttb (d : Deductions) : ℚ :=
  d._section_80ttb

/-- Setter `Deductions.section_80tta`: `None` becomes 0, a negative value
raises `TaxCalculationException`, otherwise the value is clamped to 10000
and stored. -/
def Deductions.set_section_80tta (d : Deductions) (value : Option ℚ) :
    Except String Deductions :=
  let v := value.getD 0
  if v < 0 then Except.error "section_80tta cannot be negative"
  else Except.ok { d with _section_80tta := min v 10000 }

/-- Setter `Deductions.section_80ttb`: `None` becomes 0, a negative value
raises `TaxCalculationException`, otherwise the value is clamped to 50000
and stored. -/
def Deductions.set_section_80ttb (d : Deductions) (value : Option ℚ) :
    Except String Deductions :=
  let v := value.getD 0
  if v < 0 then Except.error "section_80ttb cannot be negative"
  else Except.ok { d with _section_80ttb := min v 50000 }

/-- Aggregate `Deductions.total` exactly as written in the source: note the
source sums `section_80ggc` twice and never adds `section_80gg`. -/
def Deductions.total (d : Deductions) : ℚ :=
  d.section_80c
    + d.section_80d
    + d.section_80dd
    + d.section_80ddb
    + d.section_24b
    + d.section_80ccd_1b
    + d.section_80ccd_2
    + d.section_80eea
    + d.section_80u
    + d.section_80eeb
    + d.section_80e
    + d.section_80g_50percent
    + d.section_80g_100percent
    + d.section_80gga
    + d.section_80ggc
    + d.section_80ggc
    + d.section_80tta
    + d.section_80ttb
    + d.professional_tax
    + d.food_coupons
    + d.other_exemption

/-- The calculator object (`calculator.IncomeTaxCalculator`) after
`__init__` replaced omitted income models by default-zero instances. -/
structure IncomeTaxCalculator where
  settings : TaxSettings
  salary : SalaryIncome := {}
  business : BusinessIncome := {}
  other_income : OtherIncome := {}
  deductions : Deductions := {}

/-- Property `IncomeTaxCalculator.gross_income`: salary + business + other
income totals (the source includes no capital-gains term and the
constructor accepts no capital-gains model). -/
def IncomeTaxCalculator.gross_income (c : IncomeTaxCalculator) : ℚ :=
  c.salary.total + c.business.total + c.other_income.total

/-- Private helper `__calculate_hra_component_for_private`: only for
`PRIVATE` employment, `min(hra, 0.5 * basic_and_da, rent - 0.1 * basic_and_da)`
with no floor at zero and no use of `is_metro_resident`. -/
def IncomeTaxCalculator.calculate_hra_component_for_private
    (c : IncomeTaxCalculator) : ℚ :=
  if c.settings.employment_type = EmploymentType.PRIVATE then
    min (min c.salary.hra (c.salary.basic_and_da * 0.5))
      (c.deductions.rent_for_hra_exemption - 0.1 * c.salary.basic_and_da)
  else 0

/-- Private helper `__calculate_hra_component_for_self_employed`. -/
def IncomeTaxCalculator.calculate_hra_component_for_self_employed
    (c : IncomeTaxCalculator) : ℚ :=
  if c.settings.employment_type = EmploymentType.SELF_EMPLOYED then
    min (min 5000 (0.25 * c.gross_income)) (0.1 * c.salary.basic_and_da)
  else 0

/-- Property `IncomeTaxCalculator.total_deductions`. -/
def IncomeTaxCalculator.total_deductions (c : IncomeTaxCalculator) : ℚ :=
  c.deductions.total
    + c.calculate_hra_component_for_private
    + c.calculate_hra_component_for_self_employed

/-- Method `get_taxable_income`: returns
`(new_regime_taxable_income, old_regime_taxable_income)`. -/
def IncomeTaxCalculator.get_taxable_income (c : IncomeTaxCalculator) : ℚ × ℚ :=
  let standard_deduction :=
    if c.settings.employment_type = EmploymentType.SELF_EMPLOYED then 0
    else c.settings.standard_deduction
  let old_regime_taxable_income :=
    max 0 (c.gross_income - standard_deduction - c.total_deductions)
  let new_regime_taxable_income :=
    max 0 (c.gross_income - standard_deduction)
  (new_regime_taxable_income, old_regime_taxable_income)

/-- One entry of a slab table: `(upper_limit, marginal_rate)`; the
`float("inf")` upper limit of the source is modelled as `none`. -/
abbrev SlabEntry := Option ℚ × ℚ

/-- Loop body of `__calculate_tax_per_slab`.  `remaining` and
`previous_limit` are the loop variables; the breakdown dict is built as a
list in iteration order.  After an unbounded (`none`) entry the
source sets `previous_limit = float("inf")`; here it becomes the taxable
income itself, which agrees with the source on every table whose unbounded
entry is last (`previous_limit` is never read again there). -/
def tax_per_slab_go (taxable_income : ℚ) (remaining previous_limit : ℚ) :
    List SlabEntry → ℚ × List ((ℚ × ℚ) × ℚ)
  | [] => (0, [])
  | (limit, rate) :: rest =>
    if remaining ≤ 0 then (0, [])
    else
      let slab_end := limit.getD taxable_income
      let taxable_in_slab := min (slab_end - previous_limit) remaining
      let slab_tax := taxable_in_slab * rate
      let r := tax_per_slab_go taxable_income (remaining - taxable_in_slab)
        (limit.getD taxable_income) rest
      (slab_tax + r.1, ((previous_limit, min slab_end taxable_income), slab_tax) :: r.2)

/-- Private method `__calculate_tax_per_slab`: returns `(tax, tax_per_slab)`;
non-positive taxable income yields zero tax and an empty breakdown. -/
def calculate_tax_per_slab (taxable_income : ℚ) (slab : List SlabEntry) :
    ℚ × List ((ℚ × ℚ) × ℚ) :=
  if taxable_income ≤ 0 then (0, [])
  else tax_per_slab_go taxable_income taxable_income 0 slab

/-- Result of the external `get_tax_slabs(financial_year, age)` call:
a mapping from the four regime keys to bracket lists (`slabs.py` is the
"Slab Table Provider" collaborator). -/
structure Slabs where
  new_regime : List SlabEntry
  old_regime_general : List SlabEntry
  old_regime_senior : List SlabEntry
  old_regime_super_senior : List SlabEntry

/-- Age-based selection of the old-regime slab key in `calculate_tax`. -/
def old_slab_for_age (age : ℕ) (slabs : Slabs) : List SlabEntry :=
  if age ≥ 80 then slabs.old_regime_super_senior
  else if age ≥ 60 then slabs.old_regime_senior
  else slabs.old_regime_general

/-- Python's `round` on an exact value: round half to even, to an integer. -/
def round_half_even (x : ℚ) : ℤ :=
  let f := Int.floor x
  let frac := x - f
  if frac < 0.5 then f
  else if 0.5 < frac then f + 1
  else if f % 2 = 0 then f else f + 1

/-- Python's `round(x, 2)` on an exact value. -/
def round2 (x : ℚ) : ℚ :=
  (round_half_even (x * 100) : ℚ) / 100

/-- The `income_summary` sub-dict of the result. -/
structure IncomeSummary where
  gross_income : ℚ
  gross_deductions : ℚ
  new_regime_taxable_income : ℚ
  old_regime_taxable_income : ℚ

/-- The `tax_liability` sub-dict of the result: one bare rounded number per
regime (the source computes no surcharge and no cess). -/
structure TaxLiability where
  new_regime : ℚ
  old_regime : ℚ

/-- The `tax_regime_comparison` sub-dict of the result. -/
structure RegimeComparison where
  recommended_regime : String
  summary : String
  tax_savings_amount : ℤ

/-- The dict returned by `calculate_tax`; the two optional parts are present
exactly when the corresponding flag is set. -/
structure TaxResult where
  income_summary : IncomeSummary
  tax_liability : TaxLiability
  tax_regime_comparison : Option RegimeComparison
  tax_per_slabs : Option (List ((ℚ × ℚ) × ℚ) × List ((ℚ × ℚ) × ℚ))

/-- Method `calculate_tax`, with the slab mapping returned by the external
`get_tax_slabs(financial_year, age)` supplied as the `slabs` argument. -/
def IncomeTaxCalculator.calculate_tax (c : IncomeTaxCalculator) (slabs : Slabs)
    (is_comparision_needed : Bool := true)
    (is_tax_per_slab_needed : Bool := false) : TaxResult :=
  let taxable := c.get_taxable_income
  let new_taxable := taxable.1
  let old_taxable := taxable.2
  let new_result := calculate_tax_per_slab new_taxable slabs.new_regime
  let new_tax := new_result.1
  let old_result := calculate_tax_per_slab old_taxable
    (old_slab_for_age c.settings.age slabs)
  let old_tax := max (old_result.1 - c.deductions.total) 0
  let comparison :=
    if new_tax > old_tax then
      { recommended_regime := "old"
        summary := "Old tax regime results in a savings of ₹"
          ++ toString (round_half_even (new_tax - old_tax))
          ++ " compared to the new regime"
        tax_savings_amount := round_half_even (new_tax - old_tax) : RegimeComparison }
    else
      { recommended_regime := "new"
        summary := "New tax regime results in a savings of ₹"
          ++ toString (round_half_even (old_tax - new_tax))
          ++ " compared to the old regime"
        tax_savings_amount := round_half_even (old_tax - new_tax) }
  { income_summary :=
      { gross_income := c.gross_income
        gross_deductions := c.deductions.total
        new_regime_taxable_income := new_taxable
        old_regime_taxable_income := old_taxable }
    tax_liability :=
      { new_regime := round2 new_tax
        old_regime := round2 old_tax }
    tax_regime_comparison :=
      if is_comparision_needed then some comparison else none
    tax_per_slabs :=
      if is_tax_per_slab_needed then some (new_result.2, old_result.2) else none }

/-- Stated from the spec's words, for comparison with the source's
`gross_income` (claim C2): "gross_income = salary.total + business.total +
other_income.total + capital_gains.total". -/
def spec_gross_income (c : IncomeTaxCalculator) (capital_gains : CapitalGainsIncome) : ℚ :=
  c.salary.total + c.business.total + c.other_income.total + capital_gains.total

/-- Stated from the spec's words, for comparison with the source's
`Deductions.total` (claim C6): every deduction field counted exactly once,
excluding `rent_for_hra_exemption`. -/
def Deductions.spec_total_each_field_once (d : Deductions) : ℚ :=
  d.section_80c + d.section_80d + d.section_80gg + d.section_80dd
    + d.section_80ddb + d.section_24b + d.section_80ccd_1b + d.section_80ccd_2
    + d.section_80eea + d.section_80u + d.section_80eeb + d.section_80e
    + d.section_80g_50percent + d.section_80g_100percent + d.section_80gga
    + d.section_80ggc + d.section_80tta + d.section_80ttb + d.professional_tax
    + d.food_coupons + d.other_exemption

/-- Stated from the spec's words, for comparison with the source's capping
(claim C7): "store min(max(input, 0), ceiling)". -/
def spec_capped (x ceiling : ℚ) : ℚ :=
  min (max x 0) ceiling

/-- Stated from the spec's words, for comparison with the source's HRA
resolver (claim C5): exemption = min(HRA received, 50% of basic_and_da if
metro resident else 40%, rent paid minus 10% of basic_and_da), floored
at 0. -/
def spec_hra_exemption (c : IncomeTaxCalculator) : ℚ :=
  max 0 (min (min c.salary.hra
      ((if c.settings.is_metro_resident then (0.5 : ℚ) else 0.4) * c.salary.basic_and_da))
    (c.deductions.rent_for_hra_exemption - 0.1 * c.salary.basic_and_da))

/-- Validity of a bracket-table suffix, given the previous upper limit:
finite upper limits strictly increase and exactly the final entry has the
unbounded limit (claim C9's "strictly increasing upper limits, final limit
unbounded"; together with starting the check at 0 this is the spec's
"brackets partition [0, ∞)" invariant). -/
def validFromB (previous : ℚ) : List SlabEntry → Bool
  | [] => false
  | [(Option.none, _)] => true
  | (Option.none, _) :: _ :: _ => false
  | (Option.some l, _) :: rest => decide (previous < l) && validFromB l rest

/-- Validity of a whole bracket table. -/
def validSlabB (slab : List SlabEntry) : Bool :=
  validFromB 0 slab

/-- The breakdown's bracket boundaries are monotonically increasing with no
gaps, starting from `start`: each entry's lower bound equals the previous
entry's upper bound and lies strictly below its own upper bound. -/
def chainFromB (start : ℚ) : List ((ℚ × ℚ) × ℚ) → Bool
  | [] => true
  | ((l, u), _) :: rest => decide (l = start) && decide (l < u) && chainFromB u rest

/-- Modelled from the spec: the FY2025 new-regime bracket table returned by
the absent `slabs.get_tax_slabs` (`slabs.py` is not under `src/`).  Rates
follow the spec's mandated breakdown example for taxable income 1,650,000;
the band above 16,00,000 is the final unbounded 20% band. -/
def fy2025_new_regime : List SlabEntry :=
  [(some 400000, 0), (some 800000, 0.05), (some 1200000, 0.1),
   (some 1600000, 0.15), (none, 0.2)]

/-- Modelled from the spec: the FY2025 old-regime general bracket table of
the absent `slabs.py`, with the rates exercised by the repository's tests. -/
def fy2025_old_regime_general : List SlabEntry :=
  [(some 250000, 0), (some 500000, 0.05), (some 1000000, 0.2), (none, 0.3)]

/-- Modelled from the spec: the FY2025 old-regime senior bracket table of
the absent `slabs.py` (statutory senior basic exemption of 3,00,000). -/
def fy2025_old_regime_senior : List SlabEntry :=
  [(some 300000, 0), (some 500000, 0.05), (some 1000000, 0.2), (none, 0.3)]

/-- Modelled from the spec: the FY2025 old-regime super-senior bracket table
of the absent `slabs.py` (statutory basic exemption of 5,00,000). -/
def fy2025_old_regime_super_senior : List SlabEntry :=
  [(some 500000, 0), (some 1000000, 0.2), (none, 0.3)]

/-- The FY2025 slab mapping supplied to the calculator. -/
def fy2025_slabs : Slabs :=
  { new_regime := fy2025_new_regime
    old_regime_general := fy2025_old_regime_general
    old_regime_senior := fy2025_old_regime_senior
    old_regime_super_senior := fy2025_old_regime_super_senior }

/-- Settings of the repository's test cases: age 27, FY2025, metro resident,
private employment; the FY2025 standard deduction of 75,000 modelled from
the spec ("fixed year-dependent constant"). -/
def example_settings : TaxSettings :=
  { age := 27, financial_year := 2025, is_metro_resident := true,
    employment_type := EmploymentType.PRIVATE, standard_deduction := 75000 }

/-- Salary of the repository's test cases 2-4. -/
def example_salary : SalaryIncome :=
  { basic_and_da := 900000, hra := 500000, other_allowances := 200000,
    bonus_and_commissions := 25000 }

/-- Calculator input of the repository's test case 3: the salary above plus
`Deductions(rent_for_hra_exemption=450000)`. -/
def example_calc : IncomeTaxCalculator :=
  { settings := example_settings, salary := example_salary,
    deductions := Deductions.init 0 0 0 0 0 0 0 0 0 0 0 0 0 0 0 0 450000 0 0 0 }

/-- Capital gains of the repository's test case 4. -/
def example_capital_gains : CapitalGainsIncome :=
  { long_term_at_12_5_percent := 25000, long_term_at_20_percent := 5000 }

/-- Private, metro, basic 100,000, HRA 50,000, no rent paid: the source's
HRA component is negative here. -/
def example_c5_negative : IncomeTaxCalculator :=
  { settings := { example_settings with employment_type := EmploymentType.PRIVATE },
    salary := { basic_and_da := 100000, hra := 50000 } }

/-- Government employee paying rent: the source returns 0, the claim's
formula a positive exemption. -/
def example_c5_government : IncomeTaxCalculator :=
  { settings := { example_settings with employment_type := EmploymentType.GOVERNMENT },
    salary := { basic_and_da := 100000, hra := 50000 },
    deductions := Deductions.init 0 0 0 0 0 0 0 0 0 0 0 0 0 0 0 0 60000 0 0 0 }

/-- Private non-metro resident: the source still uses the 50% factor where
the claim prescribes 40%. -/
def example_c5_nonmetro : IncomeTaxCalculator :=
  { settings := { example_settings with is_metro_resident := false },
    salary := { basic_and_da := 100000, hra := 48000 },
    deductions := Deductions.init 0 0 0 0 0 0 0 0 0 0 0 0 0 0 0 0 60000 0 0 0 }

/-- Deductions with `section_80gg = 50` and `section_80ggc = 100` and all
other inputs 0 (claim C6's counterexample input). -/
def example_c6_deductions : Deductions :=
  Deductions.init 0 0 50 0 0 0 0 0 0 0 0 0 0 0 0 100 0 0 0 0

/-- Deductions constructed with `section_80c = -5` and all other inputs 0
(claim C7's counterexample input). -/
def example_c7_deductions : Deductions :=
  Deductions.init (-5) 0 0 0 0 0 0 0 0 0 0 0 0 0 0 0 0 0 0 0

theorem tax_per_slab_go_nonpos (T r p : ℚ) (slab : List SlabEntry) (h : r ≤ 0) :
    tax_per_slab_go T r p slab = (0, []) := by
  cases slab with
  | nil => rfl
  | cons e rest =>
    obtain ⟨limit, rate⟩ := e
    simp [tax_per_slab_go, h]

theorem tax_per_slab_go_sum (slab : List SlabEntry) : ∀ (T r p : ℚ),
    ((tax_per_slab_go T r p slab).2.map (fun e => e.2)).sum
      = (tax_per_slab_go T r p slab).1 := by
  induction slab with
  | nil => intro T r p; simp [tax_per_slab_go]
  | cons e rest ih =>
    intro T r p
    obtain ⟨limit, rate⟩ := e
    by_cases h : r ≤ 0
    · simp [tax_per_slab_go, h]
    · simp [tax_per_slab_go, h, ih]

theorem tax_per_slab_go_chain (slab : List SlabEntry) : ∀ (T previous : ℚ),
    validFromB previous slab = true →
    chainFromB previous (tax_per_slab_go T (T - previous) previous slab).2 = true := by
  induction slab with
  | nil => intro T previous h; simp [validFromB] at h
  | cons e rest ih =>
    intro T previous hv
    obtain ⟨limit, rate⟩ := e
    by_cases h : T - previous ≤ 0
    · simp [tax_per_slab_go, h, chainFromB]
    · have hpT : previous < T := by
        have h0 : 0 < T - previous := lt_of_not_le h
        linarith
      cases limit with
      | none =>
        cases rest with
        | nil =>
          simp [tax_per_slab_go, h, chainFromB, tax_per_slab_go_nonpos, hpT]
        | cons e2 r2 =>
          simp [validFromB] at hv
      | some l =>
        have hstep : previous < l ∧ validFromB l rest = true := by
          simpa [validFromB, Bool.and_eq_true, decide_eq_true_eq] using hv
        by_cases hlT : l ≤ T
        · have hmin1 : min (l - previous) (T - previous) = l - previous :=
            min_eq_left (by linarith)
          have hmin2 : min l T = l := min_eq_left hlT
          have harith : T - previous - (l - previous) = T - l := by ring
          have htail := ih T l hstep.2
          simp only [tax_per_slab_go, if_neg h, Option.getD]
          simp only [chainFromB, hmin1, hmin2, harith, Bool.and_eq_true,
            decide_eq_true_eq]
          exact ⟨⟨trivial, hstep.1⟩, htail⟩
        · have hTl : T < l := lt_of_not_ge hlT
          have hmin1 : min (l - previous) (T - previous) = T - previous :=
            min_eq_right (by linarith)
          have hmin2 : min l T = T := min_eq_right (le_of_lt hTl)
          have harith : T - previous - (T - previous) = 0 := by ring
          simp only [tax_per_slab_go, if_neg h, Option.getD]
          simp only [chainFromB, hmin1, hmin2, harith,
            tax_per_slab_go_nonpos T 0 l rest le_rfl, Bool.and_eq_true,
            decide_eq_true_eq]
          exact ⟨⟨trivial, hpT⟩, trivial⟩

theorem round_half_even_intCast (n : ℤ) : round_half_even ((n : ℚ)) = n := by
  simp [round_half_even, Int.floor_intCast]
  norm_num

theorem round2_intCast (n : ℤ) : round2 ((n : ℚ)) = ((n : ℚ)) := by
  have h : ((n : ℚ)) * 100 = (((n * 100 : ℤ) : ℚ)) := by push_cast; ring
  rw [round2, h, round_half_even_intCast]
  push_cast
  ring

theorem round2_112500 : round2 112500 = 112500 := by
  have h := round2_intCast 112500
  norm_num at h
  exact h

theorem round2_169500 : round2 169500 = 169500 := by
  have h := round2_intCast 169500
  norm_num at h
  exact h

theorem example_calc_gross : example_calc.gross_income = 1625000 := by
  norm_num [IncomeTaxCalculator.gross_income, example_calc, example_salary,
    SalaryIncome.total, BusinessIncome.total, OtherIncome.total]

theorem example_calc_ded_total : example_calc.deductions.total = 0 := by
  norm_num [example_calc, Deductions.init, Deductions.total,
    Deductions.section_80tta, Deductions.section_80ttb, min_def]

theorem example_calc_hra_private :
    example_calc.calculate_hra_component_for_private = 360000 := by
  norm_num [IncomeTaxCalculator.calculate_hra_component_for_private,
    example_calc, example_settings, example_salary, Deductions.init, min_def]

theorem example_calc_hra_self :
    example_calc.calculate_hra_component_for_self_employed = 0 := by
  simp [IncomeTaxCalculator.calculate_hra_component_for_self_employed,
    example_calc, example_settings]

theorem example_calc_taxable :
    example_calc.get_taxable_income = (1550000, 1190000) := by
  have hne : EmploymentType.PRIVATE ≠ EmploymentType.SELF_EMPLOYED := by decide
  have he : example_calc.settings.employment_type = EmploymentType.PRIVATE := rfl
  have hs : example_calc.settings.standard_deduction = 75000 := rfl
  norm_num [IncomeTaxCalculator.get_taxable_income,
    IncomeTaxCalculator.total_deductions, example_calc_gross,
    example_calc_ded_total, example_calc_hra_private, example_calc_hra_self,
    he, hs, hne, max_def]

theorem slab_tax_1550000_new :
    (calculate_tax_per_slab 1550000 fy2025_new_regime).1 = 112500 := by
  norm_num [calculate_tax_per_slab, tax_per_slab_go, fy2025_new_regime, min_def]

theorem slab_tax_1190000_old :
    (calculate_tax_per_slab 1190000 fy2025_old_regime_general).1 = 169500 := by
  norm_num [calculate_tax_per_slab, tax_per_slab_go, fy2025_old_regime_general,
    min_def]

theorem example_calc_tax_liability :
    (example_calc.calculate_tax fy2025_slabs true true).tax_liability
      = { new_regime := 112500, old_regime := 169500 } := by
  have ha : example_calc.settings.age = 27 := rfl
  simp only [IncomeTaxCalculator.calculate_tax, example_calc_taxable,
    old_slab_for_age, ha, fy2025_slabs]
  norm_num [slab_tax_1550000_new, slab_tax_1190000_old, example_calc_ded_total,
    max_def, round2_112500, round2_169500]

/-- Claim C1: evaluating the source's `calculate_tax` at the input of the
repository's test case 3 (salary 900000/500000/200000/25000, rent 450000,
FY2025), the per-regime tax liabilities are bare rounded slab-tax numbers —
112500 and 169500 — with no surcharge and no cess computed anywhere; the
repository's own test instead demands per-regime structures
{total, surcharge, cess} with total 117000 = 112500 × 1.04 for the new
regime. -/
theorem calculate_tax_emits_no_surcharge_or_cess :
    (example_calc.calculate_tax fy2025_slabs true true).tax_liability.new_regime
        = 112500
      ∧ (example_calc.calculate_tax fy2025_slabs true true).tax_liability.old_regime
        = 169500 :=
  ⟨by rw [example_calc_tax_liability], by rw [example_calc_tax_liability]⟩

/-- Claim C2, counterexample: with the capital gains of the repository's
test case 4 (total 30000), the gross income the calculator uses is 1625000
while the claim's formula salary.total + business.total + other_income.total
+ capital_gains.total gives 1655000. -/
theorem gross_income_omits_capital_gains_cex :
    example_calc.gross_income = 1625000
      ∧ spec_gross_income example_calc example_capital_gains = 1655000
      ∧ (1625000 : ℚ) ≠ 1655000 := by
  refine ⟨example_calc_gross, ?_, by norm_num⟩
  norm_num [spec_gross_income, example_calc, example_salary,
    example_capital_gains, SalaryIncome.total, BusinessIncome.total,
    OtherIncome.total, CapitalGainsIncome.total]

/-- Claim C2 (amended): the gross income used by the calculator equals
salary.total + business.total + other_income.total only; capital-gains
income is not part of it (the calculator accepts no capital-gains model),
so gross income differs from the claim's formula whenever the
capital-gains total is non-zero. -/
theorem gross_income_amended (c : IncomeTaxCalculator) (g : CapitalGainsIncome)
    (hg : g.total ≠ 0) :
    c.gross_income = c.salary.total + c.business.total + c.other_income.total
      ∧ c.gross_income ≠ spec_gross_income c g := by
  refine ⟨rfl, ?_⟩
  simp only [spec_gross_income, IncomeTaxCalculator.gross_income]
  intro heq
  exact hg (by linarith)

/-- Witness for the amended claim C2 at the repository's test-case input. -/
theorem gross_income_amended_witness :
    example_capital_gains.total ≠ 0
      ∧ (example_calc.gross_income
            = example_calc.salary.total + example_calc.business.total
              + example_calc.other_income.total
          ∧ example_calc.gross_income
            ≠ spec_gross_income example_calc example_capital_gains) :=
  ⟨by norm_num [example_capital_gains, CapitalGainsIncome.total],
    gross_income_amended example_calc example_capital_gains
      (by norm_num [example_capital_gains, CapitalGainsIncome.total])⟩

/-- Claim C3, counterexample: for the capital gains of the repository's
test case 4 the flat capital-gains tax is 4125, yet at the test-case-3
calculator input the computed new-regime liability equals the bare slab tax
112500, not slab tax plus 4125. -/
theorem capital_gains_tax_unused_cex :
    example_capital_gains.total_capital_gains_tax = 4125
      ∧ (calculate_tax_per_slab (example_calc.get_taxable_income).1
          fy2025_slabs.new_regime).1 = 112500
      ∧ (example_calc.calculate_tax fy2025_slabs true true).tax_liability.new_regime
          = 112500
      ∧ (112500 : ℚ) ≠ 112500 + 4125 := by
  refine ⟨?_, ?_, by rw [example_calc_tax_liability], by norm_num⟩
  · norm_num [CapitalGainsIncome.total_capital_gains_tax, example_capital_gains]
  · rw [example_calc_taxable]
    simpa [fy2025_slabs] using slab_tax_1550000_new

/-- Claim C3 (amended): the flat capital-gains tax does equal
short_term_at_20_percent × 0.20 + long_term_at_12_5_percent × 0.125 +
long_term_at_20_percent × 0.20 (short-term-at-normal-rate excluded), but
it is never added to the per-regime liability: `calculate_tax` takes no
capital-gains input and reports exactly the rounded slab tax per regime
(the old one after the deduction rebate). -/
theorem capital_gains_tax_formula_and_slab_only_liability
    (g : CapitalGainsIncome) (c : IncomeTaxCalculator) (slabs : Slabs)
    (b1 b2 : Bool) :
    g.total_capital_gains_tax
        = g.short_term_at_20_percent * 0.2 + g.long_term_at_12_5_percent * 0.125
          + g.long_term_at_20_percent * 0.2
      ∧ (c.calculate_tax slabs b1 b2).tax_liability.new_regime
          = round2 (calculate_tax_per_slab (c.get_taxable_income).1
              slabs.new_regime).1
      ∧ (c.calculate_tax slabs b1 b2).tax_liability.old_regime
          = round2 (max ((calculate_tax_per_slab (c.get_taxable_income).2
              (old_slab_for_age c.settings.age slabs)).1 - c.deductions.total) 0) :=
  ⟨rfl, rfl, rfl⟩

/-- Claim C4: `get_taxable_income` returns
new_regime_taxable = max(0, gross_income − standard_deduction) and
old_regime_taxable = max(0, gross_income − standard_deduction − total
deductions including the resolved HRA exemption components), where the
standard deduction is the settings' constant except 0 for SELF_EMPLOYED. -/
theorem get_taxable_income_formulas (c : IncomeTaxCalculator) :
    c.get_taxable_income
      = (max 0 (c.gross_income
            - (if c.settings.employment_type = EmploymentType.SELF_EMPLOYED then 0
               else c.settings.standard_deduction)),
         max 0 (c.gross_income
            - (if c.settings.employment_type = EmploymentType.SELF_EMPLOYED then 0
               else c.settings.standard_deduction)
            - (c.deductions.total + c.calculate_hra_component_for_private
                + c.calculate_hra_component_for_self_employed))) :=
  rfl

/-- Claim C5, counterexample: with PRIVATE metro employment, basic 100000,
HRA 50000 and no rent paid the source's HRA component is −10000 (negative,
where the claim's floored formula gives 0); a GOVERNMENT employee gets 0
where the claim's formula gives 50000; a PRIVATE non-metro employee gets
48000 where the claim's 40% factor gives 40000. -/
theorem hra_private_cex :
    example_c5_negative.calculate_hra_component_for_private = -10000
      ∧ spec_hra_exemption example_c5_negative = 0
      ∧ (-10000 : ℚ) < 0
      ∧ example_c5_government.calculate_hra_component_for_private = 0
      ∧ spec_hra_exemption example_c5_government = 50000
      ∧ example_c5_nonmetro.calculate_hra_component_for_private = 48000
      ∧ spec_hra_exemption example_c5_nonmetro = 40000 := by
  have hg : EmploymentType.GOVERNMENT ≠ EmploymentType.PRIVATE := by decide
  refine ⟨?_, ?_, by norm_num, ?_, ?_, ?_, ?_⟩
  · norm_num [IncomeTaxCalculator.calculate_hra_component_for_private,
      example_c5_negative, example_settings, min_def]
  · norm_num [spec_hra_exemption, example_c5_negative, example_settings,
      min_def, max_def]
  · simp [IncomeTaxCalculator.calculate_hra_component_for_private,
      example_c5_government, example_settings, hg]
  · norm_num [spec_hra_exemption, example_c5_government, example_settings,
      Deductions.init, min_def, max_def]
  · norm_num [IncomeTaxCalculator.calculate_hra_component_for_private,
      example_c5_nonmetro, example_settings, Deductions.init, min_def]
  · norm_num [spec_hra_exemption, example_c5_nonmetro, example_settings,
      Deductions.init, min_def, max_def]

/-- Claim C5 (amended): the salaried HRA component is granted only for
PRIVATE employment (GOVERNMENT gets 0) and equals min(HRA received,
50% of basic_and_da regardless of metro residency, rent paid − 10% of
basic_and_da) with no floor at 0, so it can be negative; the value is
independent of is_metro_resident. -/
theorem hra_private_amended (c : IncomeTaxCalculator) (b : Bool) :
    c.calculate_hra_component_for_private
        = (if c.settings.employment_type = EmploymentType.PRIVATE then
            min (min c.salary.hra (c.salary.basic_and_da * 0.5))
              (c.deductions.rent_for_hra_exemption - 0.1 * c.salary.basic_and_da)
          else 0)
      ∧ ({ c with settings := { c.settings with is_metro_resident := b } }
            : IncomeTaxCalculator).calculate_hra_component_for_private
          = c.calculate_hra_component_for_private :=
  ⟨rfl, rfl⟩

/-- Claim C6, counterexample: for deductions constructed with
section_80gg = 50, section_80ggc = 100 and everything else 0, the source's
`total` is 200 (80ggc counted twice, 80gg dropped) while the claim's
each-field-once sum is 150. -/
theorem deductions_total_cex :
    example_c6_deductions.total = 200
      ∧ example_c6_deductions.spec_total_each_field_once = 150
      ∧ (200 : ℚ) ≠ 150 := by
  refine ⟨?_, ?_, by norm_num⟩
  · norm_num [example_c6_deductions, Deductions.init, Deductions.total,
      Deductions.section_80tta, Deductions.section_80ttb, min_def]
  · norm_num [example_c6_deductions, Deductions.init,
      Deductions.spec_total_each_field_once, Deductions.section_80tta,
      Deductions.section_80ttb, min_def]

/-- Claim C6 (amended): `Deductions.total` equals the each-field-once sum
(excluding rent_for_hra_exemption) plus one extra copy of section_80ggc
and minus section_80gg: the source adds section_80ggc twice and never adds
section_80gg. -/
theorem deductions_total_amended (d : Deductions) :
    d.total = d.spec_total_each_field_once + d.section_80ggc - d.section_80gg := by
  simp only [Deductions.total, Deductions.spec_total_each_field_once,
    Deductions.section_80tta, Deductions.section_80ttb]
  ring

/-- Claim C7, counterexample: constructing deductions with
section_80c = −5 stores −5 (the source caps only from above), while the
claim's contract min(max(−5, 0), 150000) gives 0. -/
theorem capped_field_negative_cex :
    example_c7_deductions.section_80c = -5
      ∧ spec_capped (-5) 150000 = 0
      ∧ (-5 : ℚ) ≠ 0 := by
  refine ⟨?_, ?_, by norm_num⟩
  · norm_num [example_c7_deductions, Deductions.init, min_def]
  · norm_num [spec_capped, min_def, max_def]

/-- Claim C7 (amended): every capped deduction field stores
min(input, ceiling) at construction — the stored value never exceeds its
statutory ceiling, but negative inputs are stored unchanged (there is no
max(input, 0) lower clamp). -/
theorem capped_fields_amended (a b c d e f g h i j k l m n o p q r s t : ℚ) :
    ((Deductions.init a b c d e f g h i j k l m n o p q r s t).section_80c
          = min a 150000
        ∧ (Deductions.init a b c d e f g h i j k l m n o p q r s t).section_80c
          ≤ 150000)
      ∧ ((Deductions.init a b c d e f g h i j k l m n o p q r s t).section_80d
          = min b 100000
        ∧ (Deductions.init a b c d e f g h i j k l m n o p q r s t).section_80d
          ≤ 100000)
      ∧ ((Deductions.init a b c d e f g h i j k l m n o p q r s t).section_80dd
          = min d 1250000
        ∧ (Deductions.init a b c d e f g h i j k l m n o p q r s t).section_80dd
          ≤ 1250000)
      ∧ ((Deductions.init a b c d e f g h i j k l m n o p q r s t).section_80ddb
          = min e 100000
        ∧ (Deductions.init a b c d e f g h i j k l m n o p q r s t).section_80ddb
          ≤ 100000)
      ∧ ((Deductions.init a b c d e f g h i j k l m n o p q r s t).section_24b
          = min f 200000
        ∧ (Deductions.init a b c d e f g h i j k l m n o p q r s t).section_24b
          ≤ 200000)
      ∧ ((Deductions.init a b c d e f g h i j k l m n o p q r s t).section_80ccd_1b
          = min g 50000
        ∧ (Deductions.init a b c d e f g h i j k l m n o p q r s t).section_80ccd_1b
          ≤ 50000)
      ∧ ((Deductions.init a b c d e f g h i j k l m n o p q r s t).section_80ccd_2
          = min h 168001
        ∧ (Deductions.init a b c d e f g h i j k l m n o p q r s t).section_80ccd_2
          ≤ 168001)
      ∧ ((Deductions.init a b c d e f g h i j k l m n o p q r s t).section_80eea
          = min i 150000
        ∧ (Deductions.init a b c d e f g h i j k l m n o p q r s t).section_80eea
          ≤ 150000)
      ∧ ((Deductions.init a b c d e f g h i j k l m n o p q r s t).section_80u
          = min j 125000
        ∧ (Deductions.init a b c d e f g h i j k l m n o p q r s t).section_80u
          ≤ 125000)
      ∧ ((Deductions.init a b c d e f g h i j k l m n o p q r s t).section_80eeb
          = min k 150000
        ∧ (Deductions.init a b c d e f g h i j k l m n o p q r s t).section_80eeb
          ≤ 150000)
      ∧ ((Deductions.init a b c d e f g h i j k l m n o p q r s t).professional_tax
          = min r 2500
        ∧ (Deductions.init a b c d e f g h i j k l m n o p q r s t).professional_tax
          ≤ 2500)
      ∧ ((Deductions.init a b c d e f g h i j k l m n o p q r s t).food_coupons
          = min s 26000
        ∧ (Deductions.init a b c d e f g h i j k l m n o p q r s t).food_coupons
          ≤ 26000) :=
  ⟨⟨rfl, min_le_right _ _⟩, ⟨rfl, min_le_right _ _⟩, ⟨rfl, min_le_right _ _⟩,
    ⟨rfl, min_le_right _ _⟩, ⟨rfl, min_le_right _ _⟩, ⟨rfl, min_le_right _ _⟩,
    ⟨rfl, min_le_right _ _⟩, ⟨rfl, min_le_right _ _⟩, ⟨rfl, min_le_right _ _⟩,
    ⟨rfl, min_le_right _ _⟩, ⟨rfl, min_le_right _ _⟩, ⟨rfl, min_le_right _ _⟩⟩

/-- Claim C8: the reported old-regime liability is
max(0, old slab tax − Deductions.total) (the deduction bundle applied again
as a direct rebate), the comparator recommends "old" with
savings = round(new − old) exactly when the new-regime tax strictly exceeds
the rebated old-regime tax, and otherwise — including ties — recommends
"new" with savings = round(old − new). -/
theorem regime_comparator_formulas (c : IncomeTaxCalculator) (slabs : Slabs)
    (b : Bool) :
    let new_tax := (calculate_tax_per_slab (c.get_taxable_income).1
      slabs.new_regime).1
    let old_tax := max ((calculate_tax_per_slab (c.get_taxable_income).2
      (old_slab_for_age c.settings.age slabs)).1 - c.deductions.total) 0
    let r := c.calculate_tax slabs true b
    r.tax_liability.old_regime = round2 old_tax
      ∧ r.tax_regime_comparison.map RegimeComparison.recommended_regime
          = some (if new_tax > old_tax then "old" else "new")
      ∧ r.tax_regime_comparison.map RegimeComparison.tax_savings_amount
          = some (if new_tax > old_tax then round_half_even (new_tax - old_tax)
                  else round_half_even (old_tax - new_tax)) := by
  refine ⟨rfl, ?_, ?_⟩ <;>
    · simp only [IncomeTaxCalculator.calculate_tax]
      by_cases hcmp : (calculate_tax_per_slab (c.get_taxable_income).1
          slabs.new_regime).1
          > max ((calculate_tax_per_slab (c.get_taxable_income).2
              (old_slab_for_age c.settings.age slabs)).1 - c.deductions.total) 0 <;>
        simp [hcmp]

/-- Claim C9: for every taxable income T ≥ 0 and every valid bracket table
(strictly increasing finite upper limits starting above 0, exactly the last
limit unbounded), the slab-tax breakdown amounts sum exactly to the
returned total slab tax, and the breakdown's bracket boundaries are
monotonically increasing with no gaps, starting at 0. -/
theorem slab_breakdown_sum_and_boundaries (T : ℚ) (slab : List SlabEntry)
    (hT : 0 ≤ T) (hvalid : validSlabB slab = true) :
    ((calculate_tax_per_slab T slab).2.map (fun e => e.2)).sum
        = (calculate_tax_per_slab T slab).1
      ∧ chainFromB 0 (calculate_tax_per_slab T slab).2 = true := by
  unfold calculate_tax_per_slab
  by_cases h : T ≤ 0
  · simp [h, chainFromB]
  · have hchain := tax_per_slab_go_chain slab T 0 (by simpa [validSlabB] using hvalid)
    rw [sub_zero] at hchain
    simp only [if_neg h]
    exact ⟨tax_per_slab_go_sum slab T T 0, hchain⟩

/-- Witness for claim C9 at the spec's own example: taxable income 1650000
under the FY2025 new-regime table. -/
theorem slab_breakdown_sum_and_boundaries_witness :
    (0 : ℚ) ≤ 1650000 ∧ validSlabB fy2025_new_regime = true
      ∧ (((calculate_tax_per_slab 1650000 fy2025_new_regime).2.map
            (fun e => e.2)).sum
            = (calculate_tax_per_slab 1650000 fy2025_new_regime).1
          ∧ chainFromB 0 (calculate_tax_per_slab 1650000 fy2025_new_regime).2
            = true) :=
  ⟨by norm_num, by decide,
    slab_breakdown_sum_and_boundaries 1650000 fy2025_new_regime (by norm_num)
      (by decide)⟩

/-- Claim C10, counterexample: the `Deductions` constructor takes no
section_80tta/section_80ttb inputs at all — after construction both private
fields are 0 and no error has occurred — and the negative-value input error
arises only from the post-construction property setters; so the failure is
at assignment time, not construction time. -/
theorem tta_ttb_error_site_cex :
    (Deductions.init)._section_80tta = 0
      ∧ (Deductions.init)._section_80ttb = 0
      ∧ (Deductions.init).set_section_80tta (some (-1))
          = Except.error "section_80tta cannot be negative"
      ∧ (Deductions.init).set_section_80ttb (some (-1))
          = Except.error "section_80ttb cannot be negative" := by
  refine ⟨rfl, rfl, ?_, ?_⟩ <;>
    norm_num [Deductions.set_section_80tta, Deductions.set_section_80ttb]

/-- Claim C10 (amended): every negative input to the section_80tta or
section_80ttb property setters fails fast with an input error and is never
silently coerced or clamped; the constructor does not accept these fields
(it initializes both to 0), so the rejection happens at assignment time
rather than construction time. -/
theorem tta_ttb_setters_reject_negative (d : Deductions) (v : ℚ) (hv : v < 0) :
    d.set_section_80tta (some v) = Except.error "section_80tta cannot be negative"
      ∧ d.set_section_80ttb (some v)
        = Except.error "section_80ttb cannot be negative" := by
  constructor <;>
    simp [Deductions.set_section_80tta, Deductions.set_section_80ttb, hv]

/-- Witness for the amended claim C10 at value −1 on a freshly constructed
`Deductions`. -/
theorem tta_ttb_setters_reject_negative_witness :
    (-1 : ℚ) < 0
      ∧ ((Deductions.init).set_section_80tta (some (-1))
            = Except.error "section_80tta cannot be negative"
          ∧ (Deductions.init).set_section_80ttb (some (-1))
            = Except.error "section_80ttb cannot be negative") :=
  ⟨by norm_num, tta_ttb_setters_reject_negative Deductions.init (-1) (by norm_num)⟩

end TaxCalcIndia
